import Mathlib

set_option maxRecDepth 16384

/-!
Verification of the monitoring-system driver (repository
`leyyce/monitoring-system-driver`, files `src/monitoring_system.c` — the
GPIO bit-bang variant — and `src/monitoring_i2c.c` — the I2C block-write
variant) against its natural-language specification.

The two `monitoring_sys_write` proc-write handlers are embedded as pure
Lean functions.  Machine integers are modelled as `Nat` (all intermediate
CRC values stay below `2 ^ 32` by construction; the one place where
`size_t` wrap-around matters, the `count - 1` store index of the I2C
variant, is modelled explicitly modulo `2 ^ 64`).  The user-space copy,
the I2C client pointer and the bus status are modelled as explicit
parameters (`copy_ok`, `client_ok`, `bus_status`); the uninitialised
contents of the 773-byte stack buffer are the explicit parameter `stack`.
GPIO line activity is recorded as an event trace.  `List.set` on an
out-of-range index is a no-op, whereas the C code's out-of-range store is
undefined behaviour; the store *indices* of the CRC trailer are therefore
also exposed directly (`trailer_indices`) so that in-bounds claims can be
settled honestly.
-/

namespace MonitoringDriver

/-- Linux errno `EINVAL`. -/
def EINVAL : Int := 22

/-- Linux errno `EFAULT`. -/
def EFAULT : Int := 14

/-- Linux errno `ENODEV`. -/
def ENODEV : Int := 19

/-- Linux errno `EIO` (named `EIOCode` here). -/
def EIOCode : Int := 5

/-! ## CRC engine

Both C files call the kernel's `crc32(seed, data, len)` (`crc32_le` from
`lib/crc32.c`): the register is seeded with the first argument, each byte
is xored into the low eight bits and eight reflected-polynomial steps are
applied; there is no final complement. -/

/-- The reflected CRC-32 polynomial used by the kernel's `crc32_le`. -/
def CRCPOLY_LE : Nat := 0xedb88320

/-- One bit step of `crc32_le`: shift right, conditionally xor the polynomial. -/
def crc32_bit_step (crc : Nat) : Nat :=
  if crc &&& 1 = 1 then (crc >>> 1) ^^^ CRCPOLY_LE else crc >>> 1

/-- One byte step of `crc32_le`: xor the byte into the register, then 8 bit steps. -/
def crc32_byte_step (crc b : Nat) : Nat :=
  crc32_bit_step (crc32_bit_step (crc32_bit_step (crc32_bit_step
    (crc32_bit_step (crc32_bit_step (crc32_bit_step (crc32_bit_step
      (crc ^^^ (b &&& 0xFF)))))))))

/-- The kernel's `crc32(seed, data, len)` over a byte list. -/
def crc32 (seed : Nat) (data : List Nat) : Nat :=
  data.foldl crc32_byte_step seed

/-! ## CRC-32/JAMCRC as the specification words it

An independent formulation, following the spec: initialise the running
register to `0xFFFFFFFF`, process each input byte through the standard
(reflected) CRC-32 algorithm, and return the register value directly with
no final complement.  Written with `%`, `/` and explicit structural
recursion rather than the kernel-model's `&&&`, `>>>` and `foldl`, so that
the comparison with `calculate_crc` is a genuine one. -/

/-- One bit of the standard reflected CRC-32 update, spec formulation. -/
def jamcrc_bit (r : Nat) : Nat :=
  if r % 2 = 1 then (r / 2) ^^^ 0xedb88320 else r / 2

/-- One byte of the standard reflected CRC-32 update, spec formulation. -/
def jamcrc_update (r b : Nat) : Nat :=
  jamcrc_bit (jamcrc_bit (jamcrc_bit (jamcrc_bit
    (jamcrc_bit (jamcrc_bit (jamcrc_bit (jamcrc_bit (r ^^^ b % 256))))))))

/-- Run the spec's CRC register over the remaining input bytes. -/
def jamcrc_go (r : Nat) : List Nat → Nat
  | [] => r
  | b :: bs => jamcrc_go (jamcrc_update r b) bs

/-- CRC-32/JAMCRC of a byte sequence, as the specification describes it. -/
def jamcrc_spec (data : List Nat) : Nat := jamcrc_go 0xFFFFFFFF data

/-! ## Shared framing pieces -/

/-- The four bytes of a 32-bit value in little-endian order, exactly as the
two drivers extract them: `crc & 0xFF`, `(crc >> 8) & 0xFF`,
`(crc >> 16) & 0xFF`, `(crc >> 24) & 0xFF`. -/
def leBytes (crc : Nat) : List Nat :=
  [crc &&& 0xFF, (crc >>> 8) &&& 0xFF, (crc >>> 16) &&& 0xFF, (crc >>> 24) &&& 0xFF]

/-- Effect of `copy_from_user(kernel_buffer, user_buffer, count)` on the
stack buffer: the first `count` bytes are replaced by the user bytes, the
rest keeps its previous (uninitialised) contents. -/
def copy_from_user (stack user : List Nat) (count : Nat) : List Nat :=
  user.take count ++ stack.drop count

/-- Four stores `kb[i0] = v0; kb[i1] = v1; kb[i2] = v2; kb[i3] = v3`. -/
def setTrailer (kb : List Nat) : List Nat → List Nat → List Nat
  | [i0, i1, i2, i3], [v0, v1, v2, v3] =>
      (((kb.set i0 v0).set i1 v1).set i2 v2).set i3 v3
  | _, _ => kb

end MonitoringDriver

namespace MonitoringSystem

/-! ## `src/monitoring_system.c` — the GPIO bit-bang variant -/

open MonitoringDriver

/-- `MAX_BUFFER_SIZE` of `monitoring_system.c`. -/
def MAX_BUFFER_SIZE : Nat := 773

/-- `calculate_crc` of `monitoring_system.c`: `crc32(0xFFFFFFFF, data, len)`. -/
def calculate_crc (data : List Nat) : Nat := crc32 0xFFFFFFFF data

/-- Indices of the four CRC-trailer stores of `monitoring_system.c`
(lines 92–95): `count`, `count + 1`, `count + 2`, `count + 3`. -/
def trailer_indices (count : Nat) : List Nat :=
  [count, count + 1, count + 2, count + 3]

/-- Kernel-buffer contents after `copy_from_user` and the four trailer
stores, truncated to the `total_len = count + 4` bytes that are
subsequently transmitted (lines 84–97 of `monitoring_system.c`). -/
def build_frame (user stack : List Nat) (count : Nat) : List Nat :=
  let kb := copy_from_user stack user count
  let crc := calculate_crc (kb.take count)
  (setTrailer kb (trailer_indices count) (leBytes crc)).take (count + 4)

/-- One observable action of the transmit loop: a `gpiod_set_value` on the
data line `msd`, a `gpiod_set_value` on the clock line `msc`, or a
`usleep_range`. -/
inductive Ev where
  | data (v : Nat)
  | clock (v : Nat)
  | sleep (lo hi : Nat)
deriving DecidableEq

/-- Bit `j` of a byte as the driver extracts it: `(b >> j) & 1`. -/
def bit (b j : Nat) : Nat := (b >>> j) &&& 1

/-- The inner `for (j = 0; j < 8; j++)` loop of lines 103–111 for one byte:
set DATA to bit `j`, settle 100 µs, clock high, hold 200 µs, clock low,
hold 100 µs. -/
def byteEvents (b : Nat) : List Ev :=
  (List.range 8).flatMap fun j =>
    [Ev.data (bit b j), Ev.sleep 100 100, Ev.clock 1,
     Ev.sleep 200 200, Ev.clock 0, Ev.sleep 100 100]

/-- Result of the GPIO write handler: the `ssize_t` return value and the
trace of GPIO events it performed. -/
structure GpioOut where
  ret : Int
  events : List Ev
deriving DecidableEq

/-- The `monitoring_sys_write` handler of `monitoring_system.c`
(lines 71–115): reject `count > MAX_BUFFER_SIZE - 4` with `-EINVAL`,
a failed `copy_from_user` with `-EFAULT`; otherwise append the CRC
trailer, clock the whole frame out bit by bit, force DATA low, and
return `total_len = count + 4`. -/
def monitoring_sys_write (user : List Nat) (count : Nat) (copy_ok : Bool)
    (stack : List Nat) : GpioOut :=
  if count > MAX_BUFFER_SIZE - 4 then ⟨-EINVAL, []⟩
  else if copy_ok = false then ⟨-EFAULT, []⟩
  else ⟨(count : Int) + 4,
        (build_frame user stack count).flatMap byteEvents ++ [Ev.data 0]⟩

/-- The data-line values of a trace, in order. -/
def dataValues (evs : List Ev) : List Nat :=
  evs.filterMap fun e =>
    match e with
    | Ev.data v => some v
    | _ => none

/-- Whether an event is a rising clock edge (`gpiod_set_value(msc, 1)`). -/
def isClockHigh : Ev → Bool
  | Ev.clock 1 => true
  | _ => false

/-- Number of clock pulses (rising edges) in a trace. -/
def clockPulses (evs : List Ev) : Nat := (evs.filter isClockHigh).length

/-- The two GPIO line levels. -/
structure LineState where
  msd : Nat
  msc : Nat
deriving DecidableEq

/-- Effect of one event on the line levels. -/
def applyEv (s : LineState) : Ev → LineState
  | Ev.data v => ⟨v, s.msc⟩
  | Ev.clock v => ⟨s.msd, v⟩
  | Ev.sleep _ _ => s

/-- Line levels after a trace, starting from idle-low (the lines are
acquired with `GPIOD_OUT_LOW` in the probe function). -/
def runLines (evs : List Ev) : LineState := evs.foldl applyEv ⟨0, 0⟩

end MonitoringSystem

namespace MonitoringI2c

/-! ## `src/monitoring_i2c.c` — the I2C block-write variant -/

open MonitoringDriver

/-- `MAX_BUFFER_SIZE` of `monitoring_i2c.c`. -/
def MAX_BUFFER_SIZE : Nat := 773

/-- `calculate_crc` of `monitoring_i2c.c`: `crc32(0, data, len)` — the
register is seeded with `0`, not `0xFFFFFFFF`. -/
def calculate_crc (data : List Nat) : Nat := crc32 0 data

/-- Modulus of the C `size_t` type on the target (64-bit). -/
def SIZE_T_MOD : Nat := 2 ^ 64

/-- Indices of the four CRC-trailer stores of `monitoring_i2c.c`
(lines 72–75): `count - 1` (in wrapping `size_t` arithmetic), `count`,
`count + 1`, `count + 2`. -/
def trailer_indices (count : Nat) : List Nat :=
  [(count + (SIZE_T_MOD - 1)) % SIZE_T_MOD, count, count + 1, count + 2]

/-- Kernel-buffer contents after `copy_from_user` and the four trailer
stores, truncated to the `count + 4` bytes handed to
`i2c_smbus_write_i2c_block_data` (lines 66–87 of `monitoring_i2c.c`). -/
def build_frame (user stack : List Nat) (count : Nat) : List Nat :=
  let kb := copy_from_user stack user count
  let crc := calculate_crc (kb.take count)
  (setTrailer kb (trailer_indices count) (leBytes crc)).take (count + 4)

/-- One `i2c_smbus_write_i2c_block_data(client, command, length, values)`
call. -/
structure BusWrite where
  command : Nat
  length : Nat
  values : List Nat
deriving DecidableEq

/-- Result of the I2C write handler: the `ssize_t` return value and the
bus writes it issued. -/
structure I2cOut where
  ret : Int
  writes : List BusWrite
deriving DecidableEq

/-- The `monitoring_sys_write` handler of `monitoring_i2c.c`
(lines 56–94): reject `count > MAX_BUFFER_SIZE` with `-EINVAL`, a failed
`copy_from_user` with `-EFAULT`; append the CRC trailer (starting at
`count - 1`); fail with `-ENODEV` if the client is not initialised;
issue one block write of `count + 4` bytes at command/offset `0`, and
return `-EIO` if its status is negative, else `count`. -/
def monitoring_sys_write (user : List Nat) (count : Nat) (copy_ok : Bool)
    (stack : List Nat) (client_ok : Bool) (bus_status : Int) : I2cOut :=
  if count > MAX_BUFFER_SIZE then ⟨-EINVAL, []⟩
  else if copy_ok = false then ⟨-EFAULT, []⟩
  else
    let frame := build_frame user stack count
    if client_ok = false then ⟨-ENODEV, []⟩
    else if bus_status < 0 then ⟨-EIOCode, [⟨0, count + 4, frame⟩]⟩
    else ⟨(count : Int), [⟨0, count + 4, frame⟩]⟩

end MonitoringI2c

open MonitoringDriver

/-! ## Helper lemmas -/

/-- Four stores at the head of a list of length at least 4 replace its
first four elements. -/
theorem set4_head (rest : List Nat) (v0 v1 v2 v3 : Nat) (h : 4 ≤ rest.length) :
    (((rest.set 0 v0).set 1 v1).set 2 v2).set 3 v3
      = v0 :: v1 :: v2 :: v3 :: rest.drop 4 := by
  rcases rest with _ | ⟨a, _ | ⟨b, _ | ⟨c, _ | ⟨d, t⟩⟩⟩⟩
  · simp at h
  · simp at h
  · simp at h
  · simp at h
  · rfl

/-- Four consecutive stores starting right after a prefix `pre` replace the
first four elements of the remainder. -/
theorem set4_append (pre rest : List Nat) (v0 v1 v2 v3 : Nat) (h : 4 ≤ rest.length) :
    ((((pre ++ rest).set pre.length v0).set (pre.length + 1) v1).set
        (pre.length + 2) v2).set (pre.length + 3) v3
      = pre ++ v0 :: v1 :: v2 :: v3 :: rest.drop 4 := by
  rw [List.set_append_right _ _ (Nat.le_refl _),
      List.set_append_right _ _ (Nat.le_add_right _ _),
      List.set_append_right _ _ (Nat.le_add_right _ _),
      List.set_append_right _ _ (Nat.le_add_right _ _)]
  simp only [Nat.sub_self, Nat.add_sub_cancel_left]
  exact congrArg (pre ++ ·) (set4_head rest v0 v1 v2 v3 h)

/-- The frame the GPIO variant builds for a payload of valid length is the
payload followed by the little-endian CRC trailer. -/
theorem gpio_frame_eq (user stack : List Nat) (h : user.length ≤ 769)
    (hs : stack.length = 773) :
    MonitoringSystem.build_frame user stack user.length
      = user ++ leBytes (MonitoringSystem.calculate_crc user) := by
  have hdrop : 4 ≤ (stack.drop user.length).length := by
    simp only [List.length_drop, hs]; omega
  unfold MonitoringSystem.build_frame
  simp only [copy_from_user, List.take_length, List.take_left',
    MonitoringSystem.trailer_indices, setTrailer, leBytes]
  rw [set4_append _ _ _ _ _ _ hdrop, List.take_append]
  rfl

/-- Four stores at indices `n - 1`, `n`, `n + 1`, `n + 2` of `pre ++ rest`,
where `n = pre.length + 1`, replace the first four elements of `rest`. -/
theorem set4_mid (pre rest : List Nat) (n v0 v1 v2 v3 : Nat)
    (hn : n = pre.length + 1) (h : 4 ≤ rest.length) :
    ((((pre ++ rest).set (n - 1) v0).set n v1).set (n + 1) v2).set (n + 2) v3
      = pre ++ v0 :: v1 :: v2 :: v3 :: rest.drop 4 := by
  subst hn
  have e0 : pre.length + 1 - 1 = pre.length := by omega
  have e1 : pre.length + 1 + 1 = pre.length + 2 := by omega
  have e2 : pre.length + 1 + 2 = pre.length + 3 := by omega
  rw [e0, e1, e2]
  exact set4_append pre rest v0 v1 v2 v3 h

/-- The block the I2C variant builds for a non-empty payload of valid
length: the CRC trailer starts at `count - 1`, overwriting the final
payload byte, and the transmitted block ends with one byte of
uninitialised buffer contents. -/
theorem i2c_frame_eq (user stack : List Nat) (h1 : 1 ≤ user.length)
    (h : user.length ≤ 770) (hs : stack.length = 773) :
    MonitoringI2c.build_frame user stack user.length
      = user.dropLast ++ leBytes (MonitoringI2c.calculate_crc user)
          ++ (stack.drop (user.length + 3)).take 1 := by
  have hne : user ≠ [] := by
    intro hnil
    rw [hnil] at h1
    simp at h1
  have hsplit : user.dropLast ++ [user.getLast hne] = user :=
    List.dropLast_append_getLast hne
  have hdlen : user.dropLast.length = user.length - 1 := by
    simp [List.length_dropLast]
  have hidx : (user.length + (MonitoringI2c.SIZE_T_MOD - 1))
      % MonitoringI2c.SIZE_T_MOD = user.length - 1 := by
    have hM : MonitoringI2c.SIZE_T_MOD = 2 ^ 64 := rfl
    have e1 : user.length + (MonitoringI2c.SIZE_T_MOD - 1)
        = MonitoringI2c.SIZE_T_MOD + (user.length - 1) := by
      rw [hM]; omega
    rw [e1, Nat.add_mod_left]
    exact Nat.mod_eq_of_lt (by rw [hM]; omega)
  have hdrop : 4 ≤ (user.getLast hne :: stack.drop user.length).length := by
    simp only [List.length_cons, List.length_drop, hs]; omega
  unfold MonitoringI2c.build_frame
  simp only [copy_from_user, List.take_length, List.take_left',
    MonitoringI2c.trailer_indices, setTrailer, leBytes, hidx]
  have hbuf : user ++ stack.drop user.length
      = user.dropLast ++ user.getLast hne :: stack.drop user.length := by
    nth_rewrite 1 [← hsplit]
    rw [List.append_assoc, List.singleton_append]
  rw [hbuf, set4_mid _ _ _ _ _ _ _ (by omega) hdrop]
  have e4 : user.length + 4 = user.dropLast.length + 5 := by omega
  simp only [List.drop_succ_cons, List.drop_drop]
  rw [e4, List.take_append]
  simp only [List.append_assoc, List.cons_append, List.nil_append]
  rfl

/-- Data-line values of the 8-bit transmit loop for one byte: bits 0–7 of
the byte, least significant first. -/
theorem dataValues_byteEvents (b : Nat) :
    MonitoringSystem.dataValues (MonitoringSystem.byteEvents b)
      = (List.range 8).map (MonitoringSystem.bit b) := rfl

/-- The data-line extraction distributes over trace concatenation. -/
theorem dataValues_append (xs ys : List MonitoringSystem.Ev) :
    MonitoringSystem.dataValues (xs ++ ys)
      = MonitoringSystem.dataValues xs ++ MonitoringSystem.dataValues ys := by
  simp [MonitoringSystem.dataValues, List.filterMap_append]

/-- Data-line values of a whole frame transmission: the bits of every byte
of the frame in order, least significant first within each byte. -/
theorem dataValues_flatMap (l : List Nat) :
    MonitoringSystem.dataValues (l.flatMap MonitoringSystem.byteEvents)
      = l.flatMap fun b => (List.range 8).map (MonitoringSystem.bit b) := by
  induction l with
  | nil => rfl
  | cons b t ih =>
      rw [List.flatMap_cons, List.flatMap_cons, dataValues_append,
        dataValues_byteEvents, ih]

/-- Clock-pulse counting distributes over trace concatenation. -/
theorem clockPulses_append (xs ys : List MonitoringSystem.Ev) :
    MonitoringSystem.clockPulses (xs ++ ys)
      = MonitoringSystem.clockPulses xs + MonitoringSystem.clockPulses ys := by
  simp [MonitoringSystem.clockPulses, List.filter_append]

/-- Each byte of the frame is transmitted with exactly 8 clock pulses. -/
theorem clockPulses_byteEvents (b : Nat) :
    MonitoringSystem.clockPulses (MonitoringSystem.byteEvents b) = 8 := rfl

/-- A whole frame transmission has exactly 8 clock pulses per frame byte. -/
theorem clockPulses_flatMap (l : List Nat) :
    MonitoringSystem.clockPulses (l.flatMap MonitoringSystem.byteEvents)
      = l.length * 8 := by
  induction l with
  | nil => rfl
  | cons b t ih =>
      rw [List.flatMap_cons, clockPulses_append, clockPulses_byteEvents, ih,
        List.length_cons]
      omega

/-- Transmitting one byte leaves the data line at bit 7 of the byte and the
clock line low, whatever the lines held before. -/
theorem foldl_byteEvents (b : Nat) (s : MonitoringSystem.LineState) :
    (MonitoringSystem.byteEvents b).foldl MonitoringSystem.applyEv s
      = ⟨MonitoringSystem.bit b 7, 0⟩ := rfl

/-- Transmitting any frame from a clock-low state leaves the clock low. -/
theorem foldl_frame_msc (l : List Nat) (s : MonitoringSystem.LineState)
    (h : s.msc = 0) :
    ((l.flatMap MonitoringSystem.byteEvents).foldl MonitoringSystem.applyEv s).msc
      = 0 := by
  induction l generalizing s with
  | nil => simpa using h
  | cons b t ih =>
      rw [List.flatMap_cons, List.foldl_append, foldl_byteEvents]
      exact ih _ rfl

/-- Successful-path unfolding of the GPIO write handler. -/
theorem gpio_write_ok (user stack : List Nat) (count : Nat) (h : count ≤ 769) :
    MonitoringSystem.monitoring_sys_write user count true stack
      = ⟨(count : Int) + 4,
         (MonitoringSystem.build_frame user stack count).flatMap
             MonitoringSystem.byteEvents
           ++ [MonitoringSystem.Ev.data 0]⟩ := by
  have hg : ¬ count > MonitoringSystem.MAX_BUFFER_SIZE - 4 := by
    simp only [MonitoringSystem.MAX_BUFFER_SIZE]
    omega
  simp [MonitoringSystem.monitoring_sys_write, hg]

/-- Unfolding of the I2C write handler when the size guard and the user
copy succeed. -/
theorem i2c_write_ok (user stack : List Nat) (count : Nat) (client_ok : Bool)
    (bus_status : Int) (h : count ≤ 773) :
    MonitoringI2c.monitoring_sys_write user count true stack client_ok bus_status
      = (if client_ok = false then ⟨-ENODEV, []⟩
         else if bus_status < 0 then
           ⟨-EIOCode, [⟨0, count + 4, MonitoringI2c.build_frame user stack count⟩]⟩
         else ⟨(count : Int),
               [⟨0, count + 4, MonitoringI2c.build_frame user stack count⟩]⟩) := by
  have hg : ¬ count > MonitoringI2c.MAX_BUFFER_SIZE := by
    simp only [MonitoringI2c.MAX_BUFFER_SIZE]
    omega
  simp only [MonitoringI2c.monitoring_sys_write, hg, if_false, Bool.true_eq_false,
    if_neg (by simp : ¬ (true = false))]

/-! ## Claim theorems -/

/-- C1 (amended): for every payload of valid length `n ≤ 769`, the frame
built by the GPIO variant's write path has `total_length = n + 4`, keeps
the `n` payload bytes unchanged, and places the little-endian encoding of
`compute_crc(payload)` immediately after them.  (The original claim also
covered the I2C variant's write path, which violates it — see
`c1_counterexample`.) -/
theorem c1_gpio_framing (user stack : List Nat) (h : user.length ≤ 769)
    (hs : stack.length = 773) :
    (MonitoringSystem.build_frame user stack user.length).length = user.length + 4
    ∧ (MonitoringSystem.build_frame user stack user.length).take user.length = user
    ∧ (MonitoringSystem.build_frame user stack user.length).drop user.length
        = leBytes (MonitoringSystem.calculate_crc user) := by
  rw [gpio_frame_eq user stack h hs]
  refine ⟨?_, ?_, ?_⟩
  · simp [leBytes]
  · exact List.take_left user _
  · exact List.drop_left user _

/-- Witness for C1: the framing invariant evaluated on the single-byte
payload `0xB2` with a zeroed stack buffer. -/
theorem c1_witness :
    (MonitoringSystem.build_frame [0xB2] (List.replicate 773 0) 1).length = 5
    ∧ (MonitoringSystem.build_frame [0xB2] (List.replicate 773 0) 1).take 1 = [0xB2]
    ∧ (MonitoringSystem.build_frame [0xB2] (List.replicate 773 0) 1).drop 1
        = leBytes (MonitoringSystem.calculate_crc [0xB2]) :=
  c1_gpio_framing [0xB2] (List.replicate 773 0) (by decide)
    (List.length_replicate 773 0)

/-- Counterexample for C1 as stated: on the I2C variant's write path the
frame built for payload `[0x10]` neither keeps the payload byte unchanged
nor ends in the little-endian CRC bytes. -/
theorem c1_counterexample :
    ¬ ((MonitoringI2c.build_frame [0x10] (List.replicate 773 0) 1).take 1 = [0x10]
       ∧ (MonitoringI2c.build_frame [0x10] (List.replicate 773 0) 1).drop 1
           = leBytes (MonitoringI2c.calculate_crc [0x10])) := by
  decide

/-- The kernel-model bit step and the spec's bit step agree. -/
theorem bit_step_eq (r : Nat) : crc32_bit_step r = jamcrc_bit r := by
  unfold crc32_bit_step jamcrc_bit CRCPOLY_LE
  rw [Nat.and_one_is_mod, Nat.shiftRight_eq_div_pow, Nat.pow_one]

/-- The kernel-model byte step and the spec's byte step agree. -/
theorem byte_step_eq (r b : Nat) : crc32_byte_step r b = jamcrc_update r b := by
  have hb : b &&& 0xFF = b % 256 := by
    have h255 : (0xFF : Nat) = 2 ^ 8 - 1 := rfl
    rw [h255, Nat.and_pow_two_sub_one_eq_mod]
  unfold crc32_byte_step jamcrc_update
  rw [hb, bit_step_eq, bit_step_eq, bit_step_eq, bit_step_eq,
    bit_step_eq, bit_step_eq, bit_step_eq, bit_step_eq]

/-- The kernel CRC model run from any seed agrees with the spec's register
recursion run from the same register value. -/
theorem crc32_eq_jamcrc_go (data : List Nat) : ∀ r : Nat,
    crc32 r data = jamcrc_go r data := by
  induction data with
  | nil => intro r; rfl
  | cons b bs ih =>
      intro r
      have h1 : crc32 r (b :: bs) = crc32 (crc32_byte_step r b) bs := rfl
      have h2 : jamcrc_go r (b :: bs) = jamcrc_go (jamcrc_update r b) bs := rfl
      rw [h1, h2, byte_step_eq]
      exact ih (jamcrc_update r b)

/-- C2 (amended): the GPIO variant's `calculate_crc` is exactly
CRC-32/JAMCRC as specified — register initialised to `0xFFFFFFFF`,
standard CRC-32 byte processing, no final complement — as pinned down by
the standard JAMCRC check value for the ASCII string `123456789` and the
empty-sequence value `0xFFFFFFFF`; the I2C variant's `calculate_crc`
instead seeds the register with `0`, so the empty sequence yields `0`. -/
theorem c2_crc_is_jamcrc :
    (∀ data : List Nat, MonitoringSystem.calculate_crc data = jamcrc_spec data)
    ∧ jamcrc_spec [] = 0xFFFFFFFF
    ∧ jamcrc_spec [0x31, 0x32, 0x33, 0x34, 0x35, 0x36, 0x37, 0x38, 0x39] = 0x340BC6D9
    ∧ MonitoringI2c.calculate_crc [] = 0 :=
  ⟨fun data => crc32_eq_jamcrc_go data 0xFFFFFFFF, rfl, by decide, rfl⟩

/-- Counterexample for C2 as stated: the I2C variant's `calculate_crc`
does not return `0xFFFFFFFF` on the empty byte sequence, so it is not
CRC-32/JAMCRC. -/
theorem c2_counterexample :
    MonitoringI2c.calculate_crc [] ≠ 0xFFFFFFFF := by decide

/-- C3 (amended): the GPIO variant's write fails with `-EINVAL` — before
any buffer copy or transmission, whatever the copy outcome — exactly when
`count > 769`, so `count = 769` is accepted and `count = 770` rejected;
the I2C variant's guard however compares against `773`, so it rejects only
`count > 773` and accepts `count = 770`. -/
theorem c3_size_guards (user stack : List Nat) (count : Nat)
    (copy_ok client_ok : Bool) (bus_status : Int) :
    ((MonitoringSystem.monitoring_sys_write user count copy_ok stack).ret
        = -EINVAL ↔ 769 < count)
    ∧ (769 < count →
        MonitoringSystem.monitoring_sys_write user count copy_ok stack
          = ⟨-EINVAL, []⟩)
    ∧ ((MonitoringI2c.monitoring_sys_write user count copy_ok stack client_ok
          bus_status).ret = -EINVAL ↔ 773 < count)
    ∧ (773 < count →
        MonitoringI2c.monitoring_sys_write user count copy_ok stack client_ok
          bus_status = ⟨-EINVAL, []⟩) := by
  have hM : MonitoringSystem.MAX_BUFFER_SIZE - 4 = 769 := rfl
  have hM2 : MonitoringI2c.MAX_BUFFER_SIZE = 773 := rfl
  refine ⟨?_, ?_, ?_, ?_⟩
  · unfold MonitoringSystem.monitoring_sys_write
    rw [hM]
    split_ifs with h1 h2
    · simp only [true_iff]
      omega
    · simp only [EINVAL, EFAULT]
      constructor
      · intro h'
        omega
      · intro h'
        omega
    · dsimp only
      simp only [EINVAL]
      constructor
      · intro h'
        omega
      · intro h'
        omega
  · intro h'
    unfold MonitoringSystem.monitoring_sys_write
    rw [hM, if_pos (by omega)]
  · unfold MonitoringI2c.monitoring_sys_write
    rw [hM2]
    split_ifs with h1 h2 h3 h4
    · simp only [true_iff]
      omega
    · simp only [EINVAL, EFAULT]
      constructor
      · intro h'
        omega
      · intro h'
        omega
    · simp only [EINVAL, ENODEV]
      constructor
      · intro h'
        omega
      · intro h'
        omega
    · simp only [EINVAL, EIOCode]
      constructor
      · intro h'
        omega
      · intro h'
        omega
    · dsimp only
      simp only [EINVAL]
      constructor
      · intro h'
        omega
      · intro h'
        omega
  · intro h'
    unfold MonitoringI2c.monitoring_sys_write
    rw [hM2, if_pos (by omega)]

/-- Witness for C3: at `count = 770` the GPIO variant rejects the request
with `-EINVAL` and an empty trace even though the user copy would fault. -/
theorem c3_witness :
    MonitoringSystem.monitoring_sys_write [] 770 false (List.replicate 773 0)
      = ⟨-EINVAL, []⟩ :=
  (c3_size_guards [] (List.replicate 773 0) 770 false false 0).2.1 (by omega)

/-- Counterexample for C3 as stated: the I2C variant accepts
`count = 770` — the request is not rejected with `-EINVAL`; it reaches the
bus and returns `770`. -/
theorem c3_counterexample :
    (MonitoringI2c.monitoring_sys_write (List.replicate 770 0) 770 true
        (List.replicate 773 0) true 0).ret ≠ -EINVAL
    ∧ (MonitoringI2c.monitoring_sys_write (List.replicate 770 0) 770 true
        (List.replicate 773 0) true 0).ret = 770 := by
  constructor
  · decide
  · decide

/-- C4: for every valid payload, the bit-serial transmitter emits the
frame bytes in order; within each byte it drives the DATA line with
`bit j = (byte >> j) & 1` for `j = 0` to `7` (LSB first), each bit
bracketed by exactly one CLOCK high pulse, for a total of
`total_length * 8 = (count + 4) * 8` pulses. -/
theorem c4_bit_serial (user stack : List Nat) (h : user.length ≤ 769)
    (hs : stack.length = 773) :
    (MonitoringSystem.monitoring_sys_write user user.length true stack).events
      = (user ++ leBytes (MonitoringSystem.calculate_crc user)).flatMap
          MonitoringSystem.byteEvents ++ [MonitoringSystem.Ev.data 0]
    ∧ MonitoringSystem.dataValues
        (MonitoringSystem.monitoring_sys_write user user.length true stack).events
      = ((user ++ leBytes (MonitoringSystem.calculate_crc user)).flatMap fun b =>
          (List.range 8).map (MonitoringSystem.bit b)) ++ [0]
    ∧ MonitoringSystem.clockPulses
        (MonitoringSystem.monitoring_sys_write user user.length true stack).events
      = (user.length + 4) * 8 := by
  have he : (MonitoringSystem.monitoring_sys_write user user.length true stack).events
      = (user ++ leBytes (MonitoringSystem.calculate_crc user)).flatMap
          MonitoringSystem.byteEvents ++ [MonitoringSystem.Ev.data 0] := by
    rw [gpio_write_ok user stack user.length h, gpio_frame_eq user stack h hs]
  refine ⟨he, ?_, ?_⟩
  · rw [he, dataValues_append, dataValues_flatMap]
    rfl
  · rw [he, clockPulses_append, clockPulses_flatMap]
    have hlen : (user ++ leBytes (MonitoringSystem.calculate_crc user)).length
        = user.length + 4 := by
      simp [leBytes]
    rw [hlen]
    rfl

/-- Witness for C4: the bit-serial trace evaluated on the spec's example
payload `0b10110010 = 0xB2`. -/
theorem c4_witness :
    (MonitoringSystem.monitoring_sys_write [0xB2] 1 true (List.replicate 773 0)).events
      = ([0xB2] ++ leBytes (MonitoringSystem.calculate_crc [0xB2])).flatMap
          MonitoringSystem.byteEvents ++ [MonitoringSystem.Ev.data 0]
    ∧ MonitoringSystem.dataValues
        (MonitoringSystem.monitoring_sys_write [0xB2] 1 true (List.replicate 773 0)).events
      = (([0xB2] ++ leBytes (MonitoringSystem.calculate_crc [0xB2])).flatMap fun b =>
          (List.range 8).map (MonitoringSystem.bit b)) ++ [0]
    ∧ MonitoringSystem.clockPulses
        (MonitoringSystem.monitoring_sys_write [0xB2] 1 true (List.replicate 773 0)).events
      = (1 + 4) * 8 :=
  c4_bit_serial [0xB2] (List.replicate 773 0) (by decide) (List.length_replicate 773 0)

/-- C5 (amended): every return value of either write handler is either
negative (an error) or the success value; but the success values differ
from the claim: the GPIO variant returns `count + 4` — the frame length
including the 4-byte CRC trailer — while the I2C variant returns the
payload length `count`. -/
theorem c5_return_values (user stack : List Nat) (count : Nat)
    (copy_ok client_ok : Bool) (bus_status : Int) :
    ((MonitoringSystem.monitoring_sys_write user count copy_ok stack).ret < 0
      ∨ (MonitoringSystem.monitoring_sys_write user count copy_ok stack).ret
          = (count : Int) + 4)
    ∧ ((MonitoringI2c.monitoring_sys_write user count copy_ok stack client_ok
          bus_status).ret < 0
      ∨ (MonitoringI2c.monitoring_sys_write user count copy_ok stack client_ok
          bus_status).ret = (count : Int))
    ∧ (count ≤ 769 → copy_ok = true →
        (MonitoringSystem.monitoring_sys_write user count copy_ok stack).ret
          = (count : Int) + 4)
    ∧ (count ≤ 773 → copy_ok = true → client_ok = true → 0 ≤ bus_status →
        (MonitoringI2c.monitoring_sys_write user count copy_ok stack client_ok
          bus_status).ret = (count : Int)) := by
  refine ⟨?_, ?_, ?_, ?_⟩
  · unfold MonitoringSystem.monitoring_sys_write
    split_ifs <;> first
      | (left; decide)
      | (right; rfl)
  · unfold MonitoringI2c.monitoring_sys_write
    split_ifs <;> first
      | (left; decide)
      | (left; exact (by decide : -EIOCode < (0 : Int)))
      | (right; rfl)
  · intro h1 h2
    subst h2
    rw [gpio_write_ok user stack count h1]
  · intro h1 h2 h3 h4
    subst h2
    subst h3
    rw [i2c_write_ok user stack count true bus_status h1]
    rw [if_neg (by simp), if_neg (by omega)]

/-- Witness for C5: concrete successful writes — the GPIO variant returns
`0 + 4 = 4` for an empty payload, the I2C variant returns `0`. -/
theorem c5_witness :
    (MonitoringSystem.monitoring_sys_write [] 0 true (List.replicate 773 0)).ret
      = (0 : Int) + 4
    ∧ (MonitoringI2c.monitoring_sys_write [] 0 true (List.replicate 773 0) true 0).ret
      = (0 : Int) :=
  ⟨(c5_return_values [] (List.replicate 773 0) 0 true true 0).2.2.1
      (by omega) rfl,
   (c5_return_values [] (List.replicate 773 0) 0 true true 0).2.2.2
      (by omega) rfl rfl (by omega)⟩

/-- Counterexample for C5 as stated: a successful GPIO write of the
one-byte payload `[0x10]` returns `5`, not the payload length `1`. -/
theorem c5_counterexample :
    (MonitoringSystem.monitoring_sys_write [0x10] 1 true (List.replicate 773 0)).ret ≠ 1
    ∧ (MonitoringSystem.monitoring_sys_write [0x10] 1 true (List.replicate 773 0)).ret = 5 := by
  constructor
  · decide
  · decide

/-- C6 (amended): the two variants do not implement the same framing
logic.  For every non-empty payload of valid length the GPIO variant's
frame is the payload followed by the little-endian bytes of
`crc32(0xFFFFFFFF, payload)`, while the I2C variant's block is the payload
with its final byte removed, then the little-endian bytes of
`crc32(0, payload)` — a different trailer value placed one byte earlier —
then one byte of uninitialised buffer contents. -/
theorem c6_variants_differ (user stack : List Nat) (h1 : 1 ≤ user.length)
    (h : user.length ≤ 769) (hs : stack.length = 773) :
    MonitoringSystem.build_frame user stack user.length
      = user ++ leBytes (crc32 0xFFFFFFFF user)
    ∧ MonitoringI2c.build_frame user stack user.length
      = user.dropLast ++ leBytes (crc32 0 user)
          ++ (stack.drop (user.length + 3)).take 1 :=
  ⟨gpio_frame_eq user stack h hs, i2c_frame_eq user stack h1 (by omega) hs⟩

/-- Witness for C6: both frame characterisations evaluated on the payload
`[0x10]` with a zeroed stack buffer. -/
theorem c6_witness :
    MonitoringSystem.build_frame [0x10] (List.replicate 773 0) 1
      = [0x10] ++ leBytes (crc32 0xFFFFFFFF [0x10])
    ∧ MonitoringI2c.build_frame [0x10] (List.replicate 773 0) 1
      = ([0x10] : List Nat).dropLast ++ leBytes (crc32 0 [0x10])
          ++ ((List.replicate 773 0).drop (1 + 3)).take 1 :=
  c6_variants_differ [0x10] (List.replicate 773 0) (by decide) (by decide)
    (List.length_replicate 773 0)

/-- Counterexample for C6 as stated: for the payload `[0x10]` the GPIO
variant's frame and the I2C variant's block differ. -/
theorem c6_counterexample :
    MonitoringSystem.build_frame [0x10] (List.replicate 773 0) 1
      ≠ MonitoringI2c.build_frame [0x10] (List.replicate 773 0) 1 := by
  decide

/-- C7: the GPIO variant's trailer stores stay inside the 773-byte buffer
under its own guard, but the I2C variant's do not: `count = 771` passes
the I2C guard (`count ≤ 773`) yet its trailer stores touch index
`773 = count + 2`, one past the end of the buffer, and for `count = 0` the
first trailer store index `count - 1` wraps around to `2^64 - 1`.  This
refutes the in-bounds part of the claim for the I2C variant. -/
theorem c7_i2c_store_oob :
    (∀ count, count ≤ 769 →
      ∀ i ∈ MonitoringSystem.trailer_indices count, i < 773)
    ∧ 771 ≤ MonitoringI2c.MAX_BUFFER_SIZE
    ∧ MonitoringI2c.trailer_indices 771 = [770, 771, 772, 773]
    ∧ ¬ (∀ i ∈ MonitoringI2c.trailer_indices 771, i < 773)
    ∧ (MonitoringI2c.trailer_indices 0).head?
        = some (MonitoringI2c.SIZE_T_MOD - 1)
    ∧ ¬ MonitoringI2c.SIZE_T_MOD - 1 < 773 := by
  refine ⟨?_, by decide, by decide, by decide, by decide, by decide⟩
  intro count hc i hi
  simp only [MonitoringSystem.trailer_indices, List.mem_cons,
    List.not_mem_nil, or_false] at hi
  rcases hi with h' | h' | h' | h' <;> omega

/-- Witness for C7: the GPIO in-bounds part applied at `count = 769`, the
largest accepted count. -/
theorem c7_witness :
    (769 : Nat) ≤ 769 ∧ ∀ i ∈ MonitoringSystem.trailer_indices 769, i < 773 :=
  ⟨by omega, c7_i2c_store_oob.1 769 (by omega)⟩

/-- C8: after the final bit of the final byte of any transmitted frame,
the DATA line is driven low and the CLOCK line is low — both lines are
back in the idle state when the GPIO write returns. -/
theorem c8_idle_restored (user stack : List Nat) (h : user.length ≤ 769) :
    MonitoringSystem.runLines
      (MonitoringSystem.monitoring_sys_write user user.length true stack).events
      = ⟨0, 0⟩ := by
  have he : (MonitoringSystem.monitoring_sys_write user user.length true stack).events
      = (MonitoringSystem.build_frame user stack user.length).flatMap
          MonitoringSystem.byteEvents ++ [MonitoringSystem.Ev.data 0] := by
    rw [gpio_write_ok user stack user.length h]
  rw [he]
  unfold MonitoringSystem.runLines
  rw [List.foldl_append]
  have hmsc := foldl_frame_msc (MonitoringSystem.build_frame user stack user.length)
    ⟨0, 0⟩ rfl
  simp only [List.foldl_cons, List.foldl_nil, MonitoringSystem.applyEv]
  rw [hmsc]

/-- Witness for C8: idle restoration evaluated on the empty payload. -/
theorem c8_witness :
    MonitoringSystem.runLines
      (MonitoringSystem.monitoring_sys_write [] 0 true (List.replicate 773 0)).events
      = ⟨0, 0⟩ :=
  c8_idle_restored [] (List.replicate 773 0) (by decide)

/-- C9: on the I2C block path, when the size guard and the user copy
succeed, a null client makes the write fail with `-ENODEV` and no bus
write; otherwise exactly one block write of `count + 4` bytes at
command/offset `0` is issued, and a negative bus status makes the write
return `-EIO` without any further bus write. -/
theorem c9_block_path (user stack : List Nat) (count : Nat) (bus_status : Int)
    (h : count ≤ 773) :
    MonitoringI2c.monitoring_sys_write user count true stack false bus_status
      = ⟨-ENODEV, []⟩
    ∧ (MonitoringI2c.monitoring_sys_write user count true stack true bus_status).writes
        = [⟨0, count + 4, MonitoringI2c.build_frame user stack count⟩]
    ∧ (bus_status < 0 →
        (MonitoringI2c.monitoring_sys_write user count true stack true
            bus_status).ret = -EIOCode) := by
  refine ⟨?_, ?_, ?_⟩
  · rw [i2c_write_ok user stack count false bus_status h, if_pos rfl]
  · rw [i2c_write_ok user stack count true bus_status h]
    by_cases hb : bus_status < 0
    · rw [if_neg (by simp), if_pos hb]
    · rw [if_neg (by simp), if_neg hb]
  · intro hb
    rw [i2c_write_ok user stack count true bus_status h,
      if_neg (by simp), if_pos hb]

/-- Witness for C9: the block path evaluated at `count = 0` with a failing
bus status `-1`. -/
theorem c9_witness :
    MonitoringI2c.monitoring_sys_write [] 0 true (List.replicate 773 0) false (-1)
      = ⟨-ENODEV, []⟩
    ∧ (MonitoringI2c.monitoring_sys_write [] 0 true (List.replicate 773 0) true
        (-1)).writes
      = [⟨0, 0 + 4, MonitoringI2c.build_frame [] (List.replicate 773 0) 0⟩]
    ∧ ((-1 : Int) < 0 →
        (MonitoringI2c.monitoring_sys_write [] 0 true (List.replicate 773 0) true
            (-1)).ret = -EIOCode) :=
  c9_block_path [] (List.replicate 773 0) 0 (-1) (by omega)

/-- C10: whenever the user-copy step fails (and the size guard passed),
both variants return `-EFAULT` and attempt no transmission: the GPIO
variant performs no line toggling and the I2C variant issues no bus
write. -/
theorem c10_copy_fault (user stack : List Nat) (countG countI : Nat)
    (client_ok : Bool) (bus_status : Int)
    (hg : countG ≤ 769) (hi : countI ≤ 773) :
    MonitoringSystem.monitoring_sys_write user countG false stack = ⟨-EFAULT, []⟩
    ∧ MonitoringI2c.monitoring_sys_write user countI false stack client_ok
        bus_status = ⟨-EFAULT, []⟩ := by
  constructor
  · have hgd : ¬ countG > MonitoringSystem.MAX_BUFFER_SIZE - 4 := by
      simp only [MonitoringSystem.MAX_BUFFER_SIZE]
      omega
    simp [MonitoringSystem.monitoring_sys_write, hgd]
  · have hid : ¬ countI > MonitoringI2c.MAX_BUFFER_SIZE := by
      simp only [MonitoringI2c.MAX_BUFFER_SIZE]
      omega
    simp [MonitoringI2c.monitoring_sys_write, hid]

/-- Witness for C10: the copy-fault path evaluated at `count = 1` in both
variants. -/
theorem c10_witness :
    MonitoringSystem.monitoring_sys_write [0x10] 1 false (List.replicate 773 0)
      = ⟨-EFAULT, []⟩
    ∧ MonitoringI2c.monitoring_sys_write [0x10] 1 false (List.replicate 773 0)
        true 0 = ⟨-EFAULT, []⟩ :=
  c10_copy_fault [0x10] (List.replicate 773 0) 1 1 true 0 (by omega) (by omega)
